import Mathlib

/-!
Verification development for the CultureForward conversational survey
orchestrator.  The survey workflow (`app/llm/workflow/survey_graph.py`,
`survey_agents/evaluation_agent.py`, `survey_agents/conversation_agent.py`,
`agents/theme_refiner.py`) is embedded shallowly: each node function becomes
a Lean function on an explicit state record, language-model outputs become
parameters, Python runtime errors (IndexError, UnboundLocalError, KeyError)
become an explicit error type, and the langgraph conditional-edge dispatch
becomes an association-list lookup.
-/

namespace CultureForward

/-- Python runtime errors that the embedded node functions can raise. -/
inductive PyError where
  | indexError
  | unboundLocal
  | keyError
  deriving DecidableEq, Repr

/-- Errors of one whole graph invocation: a node raised, or a conditional
edge returned a route that is not a key of the registered path map. -/
inductive TurnError where
  | py (e : PyError)
  | dispatch
  deriving DecidableEq, Repr

/-- Python list indexing `l[i]`: non-negative indices from the front,
negative indices from the back, out of range is an IndexError (`none`). -/
def pyIndex {α : Type} (l : List α) (i : Int) : Option α :=
  if 0 ≤ i then l.get? i.toNat
  else
    let j : Int := (l.length : Int) + i
    if 0 ≤ j then l.get? j.toNat else none

/-- One element of the `themes` list: the Python dict `{"theme": name}`. -/
structure ThemeItem where
  theme : String
  deriving DecidableEq, Repr

/-- One turn of `conversation_history`: `{"role": ..., "content": ...}`. -/
structure ChatMsg where
  role : String
  content : String
  deriving DecidableEq, Repr

/-- A value of `theme_responses`: the Python dict
`{"answer": ..., "complete": ..., "follow_ups": ...}`; the `follow_ups` key
is absent (`none`) on records written by the complete/feedback branches. -/
structure ThemeRecord where
  answer : String
  complete : Bool
  follow_ups : Option (List String)
  deriving DecidableEq, Repr

/-- `theme_responses`: a Python dict from theme name to record, embedded as
an insertion-ordered association list. -/
abbrev ThemeResponses : Type := List (String × ThemeRecord)

/-- Python `d[k] = v`: overwrite in place if the key exists, append otherwise. -/
def dictSet (m : ThemeResponses) (k : String) (v : ThemeRecord) : ThemeResponses :=
  match m with
  | [] => [(k, v)]
  | (k', v') :: rest =>
      if k' = k then (k', v) :: rest else (k', v') :: dictSet rest k v

/-- Python `d.get(k)` / `k in d`: first binding of `k`, if any. -/
def dictGet (m : ThemeResponses) (k : String) : Option ThemeRecord :=
  match m with
  | [] => none
  | (k', v') :: rest => if k' = k then some v' else dictGet rest k

/-- `ConversationalSurveyState` (survey_state.py): the langgraph channel
values for one survey conversation. -/
structure ConversationalSurveyState where
  survey_title : String
  survey_goal : String
  themes : List ThemeItem
  user_message : String
  conversation_history : List ChatMsg
  current_theme_index : Int
  theme_responses : ThemeResponses
  is_answer_complete : Bool
  needs_follow_up : Bool
  next_theme_index : Option Int
  agent_response : String
  all_themes_complete : Bool
  survey_complete : Bool
  node_status : String
  deriving DecidableEq, Repr

/-- `SurveyEvaluationResponse` (schemas/survey_evaluation.py): the structured
output of the evaluation chain. -/
structure SurveyEvaluationResponse where
  is_answer_complete : Bool
  needs_follow_up : Bool
  follow_up_reason : Option String
  next_theme_index : Option Int
  reasoning : String
  deriving DecidableEq, Repr

/-- The partial state update returned by `EvaluationAgent.evaluation_node`. -/
structure EvalUpdate where
  is_answer_complete : Bool
  needs_follow_up : Bool
  next_theme_index : Option Int
  theme_responses : ThemeResponses
  all_themes_complete : Bool
  survey_complete : Bool
  node_status : String
  deriving DecidableEq, Repr

/-- Lines 140-177 of `evaluation_node`: the `elif` chain that follows the
`survey_complete` test.  Its condition reads the function-local
`all_themes_complete`, which at that point has not been assigned; the
caller therefore passes the local's contents as an `Option Bool` and this
chain is only entered when that local actually holds a value. -/
def evaluation_in_progress (ev : SurveyEvaluationResponse)
    (current_theme_index : Int) (themes : List ThemeItem)
    (current_theme user_message : String) (theme_responses : ThemeResponses)
    (survey_complete all_themes_complete : Bool) : Except PyError EvalUpdate :=
  if all_themes_complete ∧ current_theme_index = -2 then
    -- user provided feedback, mark survey as complete
    let theme_responses :=
      dictSet theme_responses "feedback"
        { answer := user_message, complete := true, follow_ups := none }
    Except.ok
      { is_answer_complete := ev.is_answer_complete
        needs_follow_up := ev.needs_follow_up
        next_theme_index := some (-1)
        theme_responses := theme_responses
        all_themes_complete := all_themes_complete
        survey_complete := true
        node_status := "evaluation_complete" }
  else if ev.is_answer_complete ∧ ¬ev.needs_follow_up then
    -- mark current theme as complete, move to next theme
    let theme_responses :=
      dictSet theme_responses current_theme
        { answer := user_message, complete := true, follow_ups := none }
    let next_theme_index := current_theme_index + 1
    if next_theme_index ≥ (themes.length : Int) then
      Except.ok
        { is_answer_complete := ev.is_answer_complete
          needs_follow_up := ev.needs_follow_up
          next_theme_index := some (-2)
          theme_responses := theme_responses
          all_themes_complete := true
          survey_complete := survey_complete
          node_status := "evaluation_complete" }
    else
      Except.ok
        { is_answer_complete := ev.is_answer_complete
          needs_follow_up := ev.needs_follow_up
          next_theme_index := some next_theme_index
          theme_responses := theme_responses
          all_themes_complete := false
          survey_complete := survey_complete
          node_status := "evaluation_complete" }
  else
    -- current theme needs follow-up, stay on same theme
    match dictGet theme_responses current_theme with
    | none =>
        let theme_responses :=
          dictSet theme_responses current_theme
            { answer := user_message, complete := false,
              follow_ups := some [user_message] }
        Except.ok
          { is_answer_complete := ev.is_answer_complete
            needs_follow_up := ev.needs_follow_up
            next_theme_index := some current_theme_index
            theme_responses := theme_responses
            all_themes_complete := false
            survey_complete := false
            node_status := "evaluation_complete" }
    | some record =>
        -- theme_responses[current_theme]["follow_ups"].append(user_message)
        match record.follow_ups with
        | none => Except.error PyError.keyError
        | some ups =>
            let theme_responses :=
              dictSet theme_responses current_theme
                { record with follow_ups := some (ups ++ [user_message]) }
            Except.ok
              { is_answer_complete := ev.is_answer_complete
                needs_follow_up := ev.needs_follow_up
                next_theme_index := some current_theme_index
                theme_responses := theme_responses
                all_themes_complete := false
                survey_complete := false
                node_status := "evaluation_complete" }

/-- `EvaluationAgent.evaluation_node` (evaluation_agent.py, lines 91-204).
The structured generation result is the parameter `ev`.  Line 102 indexes
`themes[current_theme_index]` with Python semantics; line 134 reads
`survey_complete` from the state; the `elif` at line 140 reads the
function-local `all_themes_complete` which is unassigned on every path that
reaches it (modelled by matching on `none`). -/
def evaluation_node (ev : SurveyEvaluationResponse)
    (state : ConversationalSurveyState) : Except PyError EvalUpdate :=
  match pyIndex state.themes state.current_theme_index with
  | none => Except.error PyError.indexError
  | some item =>
      let current_theme := item.theme
      -- ... prompt construction and `await self.chain.ainvoke(messages)`
      -- return the structured result `ev` ...
      let survey_complete := state.survey_complete
      if survey_complete then
        Except.ok
          { is_answer_complete := ev.is_answer_complete
            needs_follow_up := ev.needs_follow_up
            next_theme_index := some (-1)
            theme_responses := state.theme_responses
            all_themes_complete := true
            survey_complete := true
            node_status := "evaluation_complete" }
      else
        match (none : Option Bool) with
        | none => Except.error PyError.unboundLocal
        | some all_themes_complete =>
            evaluation_in_progress ev state.current_theme_index state.themes
              current_theme state.user_message state.theme_responses
              survey_complete all_themes_complete

/-- The partial state update returned by `conversation_node` (and by
`start_node` / `final_node`, which only touch a subset of these fields). -/
structure ConvUpdate where
  agent_response : String
  node_status : String
  deriving DecidableEq, Repr

/-- The fixed completion message of `conversation_node` (line 90). -/
def conversation_complete_message : String :=
  "Survey completed! Thank you for your participation."

/-- The fixed closing-feedback prompt of `conversation_node` (line 103). -/
def closing_feedback_prompt : String :=
  "Is there anything you want to add or any feedback you\x27d like to share?"

/-- The fixed out-of-range message of `conversation_node` (line 108). -/
def conversation_thank_you_message : String :=
  "Thank you for completing the survey!"

/-- `ConversationAgent.conversation_node` (conversation_agent.py, lines
75-159).  The free-text generation result is the parameter `gen`; the second
component counts the generation calls issued (`self.llm.ainvoke`). -/
def conversation_node (gen : String) (state : ConversationalSurveyState) :
    Except PyError ConvUpdate × Nat :=
  if state.survey_complete then
    (Except.ok { agent_response := conversation_complete_message,
                 node_status := "conversation_complete" }, 0)
  else if state.all_themes_complete ∧ state.current_theme_index = -2 then
    (Except.ok { agent_response := closing_feedback_prompt,
                 node_status := "conversation_complete" }, 0)
  else if state.current_theme_index ≥ (state.themes.length : Int) then
    (Except.ok { agent_response := conversation_thank_you_message,
                 node_status := "conversation_complete" }, 0)
  else
    -- current_theme = themes[current_theme_index]["theme"], then one
    -- generation call whose free text is accepted as-is
    match pyIndex state.themes state.current_theme_index with
    | none => (Except.error PyError.indexError, 0)
    | some _ =>
        (Except.ok { agent_response := gen,
                     node_status := "conversation_complete" }, 1)

/-- `start_node` (survey_graph.py, lines 8-23): returns only a status
marker, depending on whether the conversation history is empty. -/
def start_node (state : ConversationalSurveyState) : String :=
  if state.conversation_history.isEmpty then "start_first_question"
  else "start_evaluation"

/-- `routing_after_start` (survey_graph.py, lines 26-33). -/
def routing_after_start (state : ConversationalSurveyState) : String :=
  if state.conversation_history.isEmpty then "conversation" else "evaluation"

/-- `routing_after_evaluation` (survey_graph.py, lines 36-68).  The Python
function also assigns `state["current_theme_index"]` on two branches, so the
embedding returns the route string together with the possibly updated
state. -/
def routing_after_evaluation (state : ConversationalSurveyState) :
    String × ConversationalSurveyState :=
  if state.survey_complete then ("final", state)
  else if state.all_themes_complete then
    if state.next_theme_index = some (-2) then
      ("conversation", { state with current_theme_index := -2 })
    else ("final", state)
  else if ¬state.is_answer_complete ∨ state.needs_follow_up then
    ("conversation", state)
  else
    match state.next_theme_index with
    | some n =>
        if n ≥ 0 then ("conversation", { state with current_theme_index := n })
        else ("final", state)
    | none => ("final", state)

/-- The fixed message of `final_node` (survey_graph.py, line 77). -/
def final_node_message : String :=
  "Thank you so much for sharing your thoughtful responses! I really appreciate the time you\x27ve taken to complete this survey. Your feedback is valuable and will help make meaningful improvements."

/-- `final_node` (survey_graph.py, lines 71-79), applied to the state it
runs on: merges its partial update over the current state. -/
def apply_final (state : ConversationalSurveyState) : ConversationalSurveyState :=
  { state with
    all_themes_complete := true
    survey_complete := true
    agent_response := final_node_message
    node_status := "survey_complete" }

/-- The path map registered by `add_conditional_edges("evaluation",
routing_after_evaluation, ...)` (survey_graph.py, lines 106-109): route
string to node name. -/
def evaluation_path_map : List (String × String) :=
  [("conversation", "conversation"), ("end", "final")]

/-- The path map registered for the `start` node (lines 96-99). -/
def start_path_map : List (String × String) :=
  [("conversation", "conversation"), ("evaluation", "evaluation")]

/-- Merge an `EvalUpdate` over the state (langgraph channel overwrite). -/
def applyEvalUpdate (s : ConversationalSurveyState) (u : EvalUpdate) :
    ConversationalSurveyState :=
  { s with
    is_answer_complete := u.is_answer_complete
    needs_follow_up := u.needs_follow_up
    next_theme_index := u.next_theme_index
    theme_responses := u.theme_responses
    all_themes_complete := u.all_themes_complete
    survey_complete := u.survey_complete
    node_status := u.node_status }

/-- Merge a `ConvUpdate` over the state (langgraph channel overwrite). -/
def applyConvUpdate (s : ConversationalSurveyState) (u : ConvUpdate) :
    ConversationalSurveyState :=
  { s with agent_response := u.agent_response, node_status := u.node_status }

/-- The per-turn inputs of one `/survey/chat` invocation: the fields the
endpoint (api/v1/endpoints/survey.py, lines 144-161) fills from the request
and the database, plus the outputs the two generation chains would produce
if invoked this turn. -/
structure TurnInput where
  survey_title : String
  survey_goal : String
  themes : List ThemeItem
  user_message : String
  conversation_history : List ChatMsg
  ev : SurveyEvaluationResponse
  gen : String
  deriving Repr

/-- `graph_input` built by the endpoint (survey.py, lines 144-161): request
and database fields overwrite, the progress fields (`current_theme_index`,
`theme_responses`, `all_themes_complete`, `survey_complete`) are carried
over from the previous checkpoint, and the per-turn scratch fields are
reset. -/
def graph_input (inp : TurnInput) (prev : ConversationalSurveyState) :
    ConversationalSurveyState :=
  { survey_title := inp.survey_title
    survey_goal := inp.survey_goal
    themes := inp.themes
    user_message := inp.user_message
    conversation_history := inp.conversation_history
    current_theme_index := prev.current_theme_index
    theme_responses := prev.theme_responses
    is_answer_complete := false
    needs_follow_up := false
    next_theme_index := none
    agent_response := ""
    all_themes_complete := prev.all_themes_complete
    survey_complete := prev.survey_complete
    node_status := "" }

/-- One invocation of the compiled survey graph (`graph.ainvoke`): start
node, routing, then the evaluation/conversation nodes with conditional-edge
dispatch through `evaluation_path_map`.  A node exception or an unmapped
route aborts the turn, in which case the checkpoint is not updated. -/
def run_graph (inp : TurnInput) (prev : ConversationalSurveyState) :
    Except TurnError ConversationalSurveyState :=
  let m₀ := graph_input inp prev
  let m := { m₀ with node_status := start_node m₀ }
  if routing_after_start m = "conversation" then
    match conversation_node inp.gen m with
    | (Except.ok u, _) => Except.ok (applyConvUpdate m u)
    | (Except.error e, _) => Except.error (TurnError.py e)
  else
    match evaluation_node inp.ev m with
    | Except.error e => Except.error (TurnError.py e)
    | Except.ok u =>
        let s₁ := applyEvalUpdate m u
        let rs := routing_after_evaluation s₁
        match List.lookup rs.1 evaluation_path_map with
        | none => Except.error TurnError.dispatch
        | some node =>
            if node = "conversation" then
              match conversation_node inp.gen rs.2 with
              | (Except.ok u₂, _) => Except.ok (applyConvUpdate rs.2 u₂)
              | (Except.error e, _) => Except.error (TurnError.py e)
            else
              Except.ok (apply_final rs.2)

/-- The state of a fresh conversation: no checkpoint exists, so the endpoint
defaults `current_theme_index` to 0, `theme_responses` to empty and both
completion flags to false. -/
def initState : ConversationalSurveyState :=
  { survey_title := ""
    survey_goal := ""
    themes := []
    user_message := ""
    conversation_history := []
    current_theme_index := 0
    theme_responses := []
    is_answer_complete := false
    needs_follow_up := false
    next_theme_index := none
    agent_response := ""
    all_themes_complete := false
    survey_complete := false
    node_status := "" }

/-- Checkpoint states reachable by any sequence of successful turns from a
fresh conversation (failed turns leave the checkpoint unchanged). -/
inductive Reachable : ConversationalSurveyState → Prop where
  | init : Reachable initState
  | step {s s' : ConversationalSurveyState} (inp : TurnInput) :
      Reachable s → run_graph inp s = Except.ok s' → Reachable s'

/-- Zero or more successful turns leading from one checkpoint to a later
one within the same conversation. -/
inductive TurnStar : ConversationalSurveyState → ConversationalSurveyState → Prop where
  | refl (s : ConversationalSurveyState) : TurnStar s s
  | step {s s' s'' : ConversationalSurveyState} (inp : TurnInput) :
      run_graph inp s = Except.ok s' → TurnStar s' s'' → TurnStar s s''

/-- Typed errors of the theme-generation workflow and the provider layer
(utils/errors.py plus the langchain exception kinds the agents see):
`providerError` stands for exhaustion of the whole provider fallback chain,
`outputParseError` for the OutputParserException raised when the fixing
parser gives up, `themeRefinementError` for `ThemeRefinementError`, and
`valueError` for the `ValueError`s raised by input validation. -/
inductive AgentError where
  | providerError
  | outputParseError
  | themeRefinementError
  | valueError (msg : String)
  deriving DecidableEq, Repr

/-- `ThemeRefinerResponse` (schemas/theme_refiner.py): the structured output
of the refinement chain. -/
structure ThemeRefinerResponse where
  themes : List String
  explanation : String
  deriving DecidableEq, Repr

/-- One entry of the theme workflow's `chat_history`; entries appended by
the refiner also carry a `themes` key. -/
structure RefChatMsg where
  role : String
  content : String
  themes : Option (List ThemeItem)
  deriving DecidableEq, Repr

/-- `SurveyThemeState`: the state of the theme generation/refinement
workflow, with the fields `theme_refiner_node` reads via `state.get`. -/
structure SurveyThemeState where
  title : String
  goal : String
  company_url : String
  company_analysis : String
  themes : List ThemeItem
  user_feedback : String
  chat_history : List RefChatMsg
  deriving DecidableEq, Repr

/-- The partial state update returned by `theme_refiner_node`. -/
structure RefinerUpdate where
  themes : List ThemeItem
  explanation : String
  chat_history : List RefChatMsg
  node_status : String
  deriving DecidableEq, Repr

/-- `ThemeRefinerAgent._refine_themes` (theme_refiner.py, lines 119-138):
invokes the chain (provider fallback piped into the fixing parser, outcome
given as `chainResult`), converts the themes to dict form, and converts any
exception into `ThemeRefinementError`. -/
def refine_themes (chainResult : Except AgentError ThemeRefinerResponse) :
    Except AgentError (List ThemeItem × String) :=
  match chainResult with
  | Except.ok r => Except.ok (r.themes.map (fun t => { theme := t }), r.explanation)
  | Except.error _ => Except.error AgentError.themeRefinementError

/-- `ThemeRefinerAgent.theme_refiner_node` (theme_refiner.py, lines
141-187).  `chainResult` is the outcome the refinement chain would produce
if invoked; the second component counts the generation-chain invocations
issued.  Missing `themes`/`user_feedback` keys default to `[]`/`""` via
`state.get`, and Python truthiness makes them fail validation exactly when
empty. -/
def theme_refiner_node (chainResult : Except AgentError ThemeRefinerResponse)
    (state : SurveyThemeState) : Except AgentError RefinerUpdate × Nat :=
  if state.themes.isEmpty then
    (Except.error (AgentError.valueError "Current themes are required for refinement"), 0)
  else if state.user_feedback = "" then
    (Except.error (AgentError.valueError "User feedback is required for refinement"), 0)
  else
    match refine_themes chainResult with
    | Except.error e => (Except.error e, 1)
    | Except.ok (updated_themes, explanation) =>
        (Except.ok
          { themes := updated_themes
            explanation := explanation
            chat_history := state.chat_history ++
              [{ role := "assistant", content := explanation,
                 themes := some updated_themes }]
            node_status := "theme_refinement_complete" }, 1)

/-- `max_retries` of the `OutputFixingParser` built in
`ThemeRefinerAgent.__init__` (theme_refiner.py, line 45). -/
def theme_refiner_fix_max_retries : Nat := 3

/-- `max_retries` of the `OutputFixingParser` built in
`EvaluationAgent.__init__` (evaluation_agent.py, line 44). -/
def evaluation_fix_max_retries : Nat := 3

/-- Modelled from the spec: the Output Validator / Repairer (§4.8) realised
in the source by langchain's `OutputFixingParser`, whose code is not under
`src/`.  `parse raw` is the schema parse (`none` = RepairNeeded); on parse
failure one repair generation call rewrites the text and parsing is
retried, up to `retries` repair rounds; exhaustion raises the typed output
error.  Returns the outcome and the number of repair generation calls
issued. -/
def fixParse {α : Type} (parse : String → Option α) (repair : String → String) :
    Nat → String → Except AgentError α × Nat
  | retries, raw =>
    match parse raw with
    | some v => (Except.ok v, 0)
    | none =>
        match retries with
        | 0 => (Except.error AgentError.outputParseError, 0)
        | r + 1 =>
            let rec' := fixParse parse repair r (repair raw)
            (rec'.1, rec'.2 + 1)

/-- One provider attempt in the fallback trace: which provider was called
and its attempt number. -/
inductive Attempt where
  | primary (i : Nat)
  | secondary (i : Nat)
  deriving DecidableEq, Repr

/-- `max_retries` of the primary (`ChatOpenAI`) model in
`ConversationAgent.__init__` / `EvaluationAgent.__init__` (line 18 / 22). -/
def primary_max_retries : Nat := 3

/-- `max_retries` of the secondary (`ChatGoogleGenerativeAI`) model in
`ConversationAgent.__init__` / `EvaluationAgent.__init__` (line 23 / 27). -/
def secondary_max_retries : Nat := 2

/-- Modelled from the spec: one provider's bounded attempt loop (§4.7),
realised in the source by the client libraries' internal retry, not under
`src/`.  `f i` is the outcome of attempt number `i`; the loop stops at the
first success or after `budget` attempts, and records each attempt. -/
def attemptLoop (f : Nat → Option String) (tag : Nat → Attempt) :
    Nat → Nat → Option String × List Attempt
  | 0, _ => (none, [])
  | budget + 1, i =>
      match f i with
      | some r => (some r, [tag i])
      | none =>
          let rest := attemptLoop f tag budget (i + 1)
          (rest.1, tag i :: rest.2)

/-- Modelled from the spec: the Provider Client fallback pair (§4.7),
realised in the source by `primary.with_fallbacks([secondary])` (langchain,
not under `src/`): the primary is attempted up to its full budget, and only
on its exhaustion is the secondary attempted up to its own budget; if both
are exhausted the provider error surfaces.  Returns the outcome and the
ordered trace of provider attempts. -/
def generate (primary secondary : Nat → Option String) (n m : Nat) :
    Except AgentError String × List Attempt :=
  match attemptLoop primary Attempt.primary n 0 with
  | (some r, tr) => (Except.ok r, tr)
  | (none, tr) =>
      match attemptLoop secondary Attempt.secondary m 0 with
      | (some r, tr₂) => (Except.ok r, tr ++ tr₂)
      | (none, tr₂) => (Except.error AgentError.providerError, tr ++ tr₂)

/-- A five-theme survey, as in the spec's walk-through scenario. -/
def fiveThemes : List ThemeItem :=
  [{ theme := "Culture" }, { theme := "Leadership" }, { theme := "Growth" },
   { theme := "Balance" }, { theme := "Feedback" }]

/-- An evaluation verdict that judges the answer complete with no follow-up. -/
def evCompleteNoFollowUp : SurveyEvaluationResponse :=
  { is_answer_complete := true
    needs_follow_up := false
    follow_up_reason := none
    next_theme_index := some 1
    reasoning := "answer covers the theme" }

/-- The first answering turn of the five-theme scenario: the user has
answered the first question, so the history is non-empty. -/
def c1_input : TurnInput :=
  { survey_title := "Culture survey"
    survey_goal := "Understand culture"
    themes := fiveThemes
    user_message := "my answer"
    conversation_history :=
      [{ role := "assistant", content := "first question" },
       { role := "user", content := "my answer" }]
    ev := evCompleteNoFollowUp
    gen := "next question" }

/-- A checkpoint of a conversation whose survey already completed. -/
def c3_state : ConversationalSurveyState :=
  { initState with
    themes := fiveThemes
    current_theme_index := 4
    theme_responses :=
      [("Culture", { answer := "a", complete := true, follow_ups := none })]
    all_themes_complete := true
    survey_complete := true }

/-- A further user message sent after the survey completed. -/
def c3_input : TurnInput :=
  { survey_title := "Culture survey"
    survey_goal := "Understand culture"
    themes := fiveThemes
    user_message := "one more thing"
    conversation_history := [{ role := "user", content := "one more thing" }]
    ev := evCompleteNoFollowUp
    gen := "question" }

/-- A state on which `routing_after_evaluation` takes its terminal branch. -/
def c4_state : ConversationalSurveyState :=
  { initState with survey_complete := true }

/-- An in-progress state (survey not complete, current theme in range). -/
def c2_state : ConversationalSurveyState :=
  { initState with themes := fiveThemes }

/-- A completed-survey state holding one complete theme record. -/
def c6_state : ConversationalSurveyState :=
  { initState with
    themes := fiveThemes
    current_theme_index := 0
    theme_responses :=
      [("Culture", { answer := "a", complete := true, follow_ups := none })]
    all_themes_complete := true
    survey_complete := true }

/-- The update `evaluation_node` returns on `c6_state`. -/
def c6_update : EvalUpdate :=
  { is_answer_complete := true
    needs_follow_up := false
    next_theme_index := some (-1)
    theme_responses :=
      [("Culture", { answer := "a", complete := true, follow_ups := none })]
    all_themes_complete := true
    survey_complete := true
    node_status := "evaluation_complete" }

/-- A state in the feedback phase by index only: `current_theme_index = -2`
but `all_themes_complete` still false. -/
def c7_state : ConversationalSurveyState :=
  { initState with
    themes := fiveThemes
    current_theme_index := -2
    conversation_history := [{ role := "user", content := "hello" }] }

/-- A state in the feedback phase with `all_themes_complete` set. -/
def c7_amended_state : ConversationalSurveyState :=
  { initState with
    themes := fiveThemes
    current_theme_index := -2
    all_themes_complete := true }

/-- A theme-workflow state with no current themes. -/
def c8_state : SurveyThemeState :=
  { title := "Culture survey"
    goal := "Understand culture"
    company_url := "https://example.com"
    company_analysis := "analysis"
    themes := []
    user_feedback := "please change the themes"
    chat_history := [] }

/-- Every successful return of `evaluation_node` comes from the
already-complete branch: the input state has `survey_complete = true` and
the update re-asserts both flags, keeps `theme_responses` untouched and
recommends index `-1`.  Every other path raises. -/
theorem evaluation_node_ok {ev : SurveyEvaluationResponse}
    {s : ConversationalSurveyState} {u : EvalUpdate}
    (h : evaluation_node ev s = Except.ok u) :
    s.survey_complete = true ∧ u.survey_complete = true ∧
    u.all_themes_complete = true ∧ u.theme_responses = s.theme_responses ∧
    u.next_theme_index = some (-1) := by
  unfold evaluation_node at h
  split at h
  · exact Except.noConfusion h
  · by_cases hsc : s.survey_complete = true
    · simp only [hsc, if_true] at h
      injection h with h'
      subst h'
      exact ⟨hsc, rfl, rfl, rfl, rfl⟩
    · simp [hsc] at h

/-- When the state is already marked survey-complete, the evaluation router
takes its first branch. -/
theorem routing_after_evaluation_complete {s : ConversationalSurveyState}
    (h : s.survey_complete = true) :
    routing_after_evaluation s = ("final", s) := by
  simp [routing_after_evaluation, h]

/-- A successful graph invocation never changes the two completion flags:
the history-empty entry goes straight to the conversation node, whose
update touches neither flag, and the evaluation branch can only terminate
in an error (UnboundLocalError while in progress, or the unmapped "final"
route when already complete). -/
theorem run_graph_ok_flags {inp : TurnInput} {s s' : ConversationalSurveyState}
    (h : run_graph inp s = Except.ok s') :
    s'.survey_complete = s.survey_complete ∧
    s'.all_themes_complete = s.all_themes_complete := by
  simp only [run_graph] at h
  split at h
  · -- start routed to the conversation node
    split at h
    case _ u n heq =>
      injection h with h'
      subst h'
      exact ⟨rfl, rfl⟩
    case _ e n heq =>
      exact Except.noConfusion h
  · -- start routed to the evaluation node
    split at h
    case _ e heq =>
      exact Except.noConfusion h
    case _ u heq =>
      have hu := evaluation_node_ok heq
      rw [routing_after_evaluation_complete (show (applyEvalUpdate _ u).survey_complete = true from hu.2.1)] at h
      simp [evaluation_path_map, List.lookup] at h

/-- Every reachable checkpoint still has both completion flags false: the
fresh conversation starts with them false and no successful turn changes
them. -/
theorem reachable_flags {s : ConversationalSurveyState} (h : Reachable s) :
    s.survey_complete = false ∧ s.all_themes_complete = false := by
  induction h with
  | init => exact ⟨rfl, rfl⟩
  | step inp _ hok ih =>
      have hf := run_graph_ok_flags hok
      exact ⟨hf.1.trans ih.1, hf.2.trans ih.2⟩

/-- Along any sequence of successful turns the completion flags are
constant. -/
theorem turnStar_flags {s s' : ConversationalSurveyState} (h : TurnStar s s') :
    s'.survey_complete = s.survey_complete ∧
    s'.all_themes_complete = s.all_themes_complete := by
  induction h with
  | refl s => exact ⟨rfl, rfl⟩
  | step inp hok _ ih =>
      have hf := run_graph_ok_flags hok
      exact ⟨ih.1.trans hf.1, ih.2.trans hf.2⟩

/-- C1: the spec's five-theme walk-through (indices 0→1→2→3→4→(-2)→(-1)
over six question turns plus a closing turn) never happens on the code: the
very first answering turn routes to the evaluation node, which, on a state
with `survey_complete = false`, raises UnboundLocalError at the `elif` that
reads the unassigned local `all_themes_complete`, so the theme index never
advances past 0. -/
theorem c1_first_evaluation_crashes :
    initState.current_theme_index = 0 ∧ initState.survey_complete = false ∧
    run_graph c1_input initState = Except.error (TurnError.py PyError.unboundLocal) :=
  ⟨rfl, rfl, rfl⟩

/-- C2: on every state with `survey_complete = false` whose current-theme
lookup `themes[current_theme_index]` succeeds (so execution survives line
102 and returns from the structured generation call), `evaluation_node`
raises UnboundLocalError at the branch condition that reads the
function-local `all_themes_complete` before any assignment, and hence never
returns a state update for an in-progress survey. -/
theorem c2_unbound_local_in_progress (ev : SurveyEvaluationResponse)
    (s : ConversationalSurveyState) (hsc : s.survey_complete = false)
    (hidx : (pyIndex s.themes s.current_theme_index).isSome = true) :
    evaluation_node ev s = Except.error PyError.unboundLocal := by
  obtain ⟨item, hit⟩ := Option.isSome_iff_exists.mp hidx
  simp [evaluation_node, hit, hsc]

/-- Witness for C2 on a concrete in-progress state. -/
theorem c2_witness :
    c2_state.survey_complete = false ∧
    (pyIndex c2_state.themes c2_state.current_theme_index).isSome = true ∧
    evaluation_node evCompleteNoFollowUp c2_state = Except.error PyError.unboundLocal :=
  ⟨rfl, rfl, c2_unbound_local_in_progress evCompleteNoFollowUp c2_state rfl rfl⟩

/-- C3: re-running the graph on a conversation already at
`survey_complete = true` is not idempotent-and-answered as claimed: the
evaluation node succeeds, but `routing_after_evaluation` then returns
"final", which is not a key of the evaluation node's path map, so the turn
aborts with a dispatch error and the fixed completion message is never
returned to the caller. -/
theorem c3_rerun_after_complete_dispatch_error :
    c3_state.survey_complete = true ∧
    run_graph c3_input c3_state = Except.error TurnError.dispatch :=
  ⟨rfl, rfl⟩

/-- C4: the route computed by `routing_after_evaluation` is always
"conversation" or "final"; the registered path map for the evaluation node
maps only "conversation" and "end", so a terminal routing decision never
resolves to the `final` node. -/
theorem c4_terminal_route_unmapped (s : ConversationalSurveyState) :
    List.lookup (routing_after_evaluation s).1 evaluation_path_map ≠ some "final" ∧
    ((routing_after_evaluation s).1 ≠ "conversation" →
      (routing_after_evaluation s).1 = "final" ∧
      List.lookup "final" evaluation_path_map = none) := by
  have hroute : (routing_after_evaluation s).1 = "conversation" ∨
      (routing_after_evaluation s).1 = "final" := by
    unfold routing_after_evaluation
    repeat' split
    all_goals simp
  rcases hroute with h | h <;> rw [h]
  · exact ⟨by decide, fun hne => absurd rfl hne⟩
  · exact ⟨by decide, fun _ => ⟨rfl, by decide⟩⟩

/-- Witness for C4 on a concrete terminal routing decision. -/
theorem c4_witness :
    (routing_after_evaluation c4_state).1 = "final" ∧
    List.lookup "final" evaluation_path_map = none :=
  (c4_terminal_route_unmapped c4_state).2 (by decide)

/-- C5: on every reachable checkpoint, `survey_complete = true` implies
`all_themes_complete = true`, and both flags, once true, stay true along
any further successful turns.  (Both facts hold vacuously: no reachable
state ever has either flag true, because every evaluation turn aborts —
with UnboundLocalError while in progress, or with the unmapped "final"
route once complete — and the remaining turns never touch the flags.) -/
theorem c5_completion_flags_invariant (s s' : ConversationalSurveyState)
    (hreach : Reachable s) (_hstar : TurnStar s s') :
    (s.survey_complete = true → s.all_themes_complete = true) ∧
    (s.survey_complete = true → s'.survey_complete = true) ∧
    (s.all_themes_complete = true → s'.all_themes_complete = true) := by
  obtain ⟨h1, h2⟩ := reachable_flags hreach
  refine ⟨fun hc => ?_, fun hc => ?_, fun hc => ?_⟩
  · rw [h1] at hc; exact Bool.noConfusion hc
  · rw [h1] at hc; exact Bool.noConfusion hc
  · rw [h2] at hc; exact Bool.noConfusion hc

/-- Witness for C5 at the fresh conversation state. -/
theorem c5_witness :
    (initState.survey_complete = true → initState.all_themes_complete = true) ∧
    (initState.survey_complete = true → initState.survey_complete = true) ∧
    (initState.all_themes_complete = true → initState.all_themes_complete = true) :=
  c5_completion_flags_invariant initState initState Reachable.init (TurnStar.refl initState)

/-- C6: a run of the evaluation stage never flips a theme record that is
already `complete = true` back to incomplete: whenever `evaluation_node`
returns an update, the record for any previously complete theme is still
present and still complete. -/
theorem c6_complete_monotone (ev : SurveyEvaluationResponse)
    (s : ConversationalSurveyState) (u : EvalUpdate) (t : String) (r : ThemeRecord)
    (hok : evaluation_node ev s = Except.ok u)
    (hr : dictGet s.theme_responses t = some r) (hc : r.complete = true) :
    ∃ r', dictGet u.theme_responses t = some r' ∧ r'.complete = true := by
  obtain ⟨-, -, -, hresp, -⟩ := evaluation_node_ok hok
  refine ⟨r, ?_, hc⟩
  rw [hresp]
  exact hr

/-- Witness for C6 on a concrete completed conversation. -/
theorem c6_witness :
    ∃ r', dictGet c6_update.theme_responses "Culture" = some r' ∧ r'.complete = true :=
  c6_complete_monotone evCompleteNoFollowUp c6_state c6_update "Culture"
    { answer := "a", complete := true, follow_ups := none } rfl rfl rfl

/-- C7 counterexample: on a state with `survey_complete = false` and
`current_theme_index = -2` but `all_themes_complete = false`, the
conversation node does not return the fixed closing-feedback prompt: the
guard at line 99 also requires `all_themes_complete`, so control falls
through to Python's negative indexing `themes[-2]` and a generation call is
issued, whose free text becomes the response. -/
theorem c7_counterexample :
    c7_state.survey_complete = false ∧ c7_state.current_theme_index = -2 ∧
    conversation_node "GENERATED" c7_state =
      (Except.ok { agent_response := "GENERATED",
                   node_status := "conversation_complete" }, 1) ∧
    "GENERATED" ≠ closing_feedback_prompt :=
  ⟨rfl, rfl, rfl, by decide⟩

/-- C7 (amended): on every state with `survey_complete = false`,
`all_themes_complete = true` and `current_theme_index = -2`, the
conversation node returns the fixed closing-feedback prompt and issues no
generation call. -/
theorem c7_feedback_prompt_fixed (gen : String) (s : ConversationalSurveyState)
    (hsc : s.survey_complete = false) (hatc : s.all_themes_complete = true)
    (hidx : s.current_theme_index = -2) :
    conversation_node gen s =
      (Except.ok { agent_response := closing_feedback_prompt,
                   node_status := "conversation_complete" }, 0) := by
  simp [conversation_node, hsc, hatc, hidx]

/-- Witness for the amended C7 on a concrete feedback-phase state. -/
theorem c7_witness :
    c7_amended_state.survey_complete = false ∧
    c7_amended_state.all_themes_complete = true ∧
    c7_amended_state.current_theme_index = -2 ∧
    conversation_node "anything" c7_amended_state =
      (Except.ok { agent_response := closing_feedback_prompt,
                   node_status := "conversation_complete" }, 0) :=
  ⟨rfl, rfl, rfl, c7_feedback_prompt_fixed "anything" c7_amended_state rfl rfl rfl⟩

/-- C8: on every theme-workflow state whose current themes are empty (or
missing, which `state.get` defaults to empty), the refinement stage fails
with the validation `ValueError` and issues no generation call. -/
theorem c8_empty_themes_validation
    (chainResult : Except AgentError ThemeRefinerResponse)
    (s : SurveyThemeState) (h : s.themes = []) :
    theme_refiner_node chainResult s =
      (Except.error (AgentError.valueError "Current themes are required for refinement"), 0) := by
  simp [theme_refiner_node, h]

/-- Witness for C8 on a concrete state with no themes. -/
theorem c8_witness :
    c8_state.themes = [] ∧
    theme_refiner_node (Except.ok { themes := ["X"], explanation := "e" }) c8_state =
      (Except.error (AgentError.valueError "Current themes are required for refinement"), 0) :=
  ⟨rfl, c8_empty_themes_validation (Except.ok { themes := ["X"], explanation := "e" }) c8_state rfl⟩

/-- If parsing fails on every text, the repair loop issues exactly as many
repair generation calls as its retry bound and then reports the typed
output error. -/
theorem fixParse_all_fail {α : Type} (parse : String → Option α)
    (repair : String → String) (h : ∀ t, parse t = none) :
    ∀ (n : Nat) (raw : String),
      fixParse parse repair n raw = (Except.error AgentError.outputParseError, n) := by
  intro n
  induction n with
  | zero => intro raw; simp [fixParse, h]
  | succ k ih => intro raw; simp [fixParse, h, ih]

/-- C9: both structured-output stages configure their fixing parser with a
repair bound of 3; if the provider's text never parses, the repair loop
issues exactly 3 repair generation calls and then fails with the typed
output-format error, which the refinement stage surfaces as
`ThemeRefinementError` — both typed errors distinct from the
provider-failure error. -/
theorem c9_repair_bound_and_typed_error
    (parse : String → Option ThemeRefinerResponse) (repair : String → String)
    (raw : String) (h : ∀ t, parse t = none) :
    theme_refiner_fix_max_retries = 3 ∧ evaluation_fix_max_retries = 3 ∧
    fixParse parse repair theme_refiner_fix_max_retries raw =
      (Except.error AgentError.outputParseError, 3) ∧
    refine_themes (Except.error AgentError.outputParseError) =
      Except.error AgentError.themeRefinementError ∧
    AgentError.themeRefinementError ≠ AgentError.providerError ∧
    AgentError.outputParseError ≠ AgentError.providerError :=
  ⟨rfl, rfl, fixParse_all_fail parse repair h 3 raw, rfl, by decide, by decide⟩

/-- Witness for C9 with a parser that always fails. -/
theorem c9_witness :
    fixParse (fun _ : String => (none : Option ThemeRefinerResponse))
        (fun t => t) theme_refiner_fix_max_retries "not json" =
      (Except.error AgentError.outputParseError, 3) :=
  (c9_repair_bound_and_typed_error (fun _ => none) (fun t => t) "not json"
    (fun _ => rfl)).2.2.1

/-- A provider whose every attempt fails is attempted exactly its full
budget, in order. -/
theorem attemptLoop_all_fail (f : Nat → Option String) (tag : Nat → Attempt)
    (h : ∀ i, f i = none) :
    ∀ (n i : Nat), attemptLoop f tag n i = (none, (List.range' i n).map tag) := by
  intro n
  induction n with
  | zero => intro i; simp [attemptLoop]
  | succ k ih => intro i; simp [attemptLoop, h, ih, List.range'_succ]

/-- C10: if the primary provider fails on all of its `n` attempts and the
secondary succeeds (at its first attempt, its budget being positive), the
generation call returns the secondary's result, and the attempt trace shows
the secondary invoked only after the primary's full retry budget: all `n`
primary attempts precede the secondary one. -/
theorem c10_fallback_after_primary_exhaustion
    (primary secondary : Nat → Option String) (n m : Nat) (r : String)
    (hp : ∀ i, primary i = none) (hs : secondary 0 = some r) (hm : 0 < m) :
    generate primary secondary n m =
      (Except.ok r, (List.range n).map Attempt.primary ++ [Attempt.secondary 0]) := by
  obtain ⟨k, rfl⟩ : ∃ k, m = k + 1 := ⟨m - 1, by omega⟩
  simp [generate, attemptLoop_all_fail primary Attempt.primary hp n 0,
    attemptLoop, hs, List.range_eq_range']

/-- Witness for C10 with the budgets configured by the survey agents
(primary `max_retries = 3`, secondary `max_retries = 2`). -/
theorem c10_witness :
    generate (fun _ => none) (fun _ => some "from secondary")
        primary_max_retries secondary_max_retries =
      (Except.ok "from secondary",
       [Attempt.primary 0, Attempt.primary 1, Attempt.primary 2,
        Attempt.secondary 0]) :=
  c10_fallback_after_primary_exhaustion (fun _ => none)
    (fun _ => some "from secondary") 3 2 "from secondary"
    (fun _ => rfl) rfl (by decide)

end CultureForward



